import Mathlib

/-!
Verification of the skin-tone color-suggestion service.

The repository's transport layer (`app/config.py`, `app/routes/color_analysis.py`)
is embedded directly from the source.  The core pipeline modules
(`core.image_processor`, `core.color_analyzer`, `models.schemas`) are imported by
the route but are not present in the repository, so they are modelled from the
specification (each such definition carries a doc comment saying so).
-/

/-- Settings, embedded from `app/config.py` (`class Settings(BaseSettings)`). -/
structure Settings where
  debug : Bool
  max_image_size : Nat
  allowed_image_types : List String
deriving DecidableEq, Repr

/-- Default field values of `Settings` in `app/config.py`. -/
def Settings.default : Settings :=
  { debug := false
    max_image_size := 10 * 1024 * 1024
    allowed_image_types := ["image/jpeg", "image/png", "image/webp"] }

/-- Embeds `get_settings` of `app/config.py`: the module-global `_settings`
is threaded explicitly as an `Option Settings` state. -/
def get_settings : Option Settings → Settings × Option Settings
  | none => (Settings.default, some Settings.default)
  | some s => (s, some s)

/-- Module-level `settings = get_settings()` in `app/routes/color_analysis.py`,
executed with the initial (empty) module state. -/
def settings : Settings := (get_settings none).1

/-- An RGB color triple. -/
structure Color where
  r : Nat
  g : Nat
  b : Nat
deriving DecidableEq, Repr

/-- Modelled from the spec (§3 Data Model): a PixelSample is a color triple with
a weight (frequency of occurrence in the sampled region). -/
structure PixelSample where
  color : Color
  weight : Nat
deriving DecidableEq, Repr

/-- Modelled from the spec (§4.1): the preprocessor output handed to the
classifier: the representative samples plus the fallback flag set when skin
detection found too few pixels. -/
structure ProcessedImage where
  samples : List PixelSample
  fallback : Bool
deriving DecidableEq, Repr

/-- Skin-tone category enum of the spec's data model. -/
inductive Category
  | fair
  | light
  | medium
  | dark
deriving DecidableEq, Repr

/-- Undertone enum of the spec's data model. -/
inductive Undertone
  | cool
  | warm
  | neutral
deriving DecidableEq, Repr

/-- Error taxonomy of the spec (§7): the failures the missing core modules can
raise. -/
inductive CoreError
  | decodeError
  | emptyImage
  | insufficientData
  | unknownCombination
deriving DecidableEq, Repr

/-- Python `str(e)` of each core error, as seen by the route's logging and
error wrapping. -/
def CoreError.str : CoreError → String
  | .decodeError => "DecodeError: invalid image data"
  | .emptyImage => "EmptyImageError: image has zero dimensions"
  | .insufficientData => "InsufficientDataError: no samples available"
  | .unknownCombination => "UnknownCombinationError: no recommendations for combination"

/-- Modelled from the spec (§3): the classifier result. Confidence is kept as a
rational number standing for the float in [0,1]. -/
structure SkinToneResult where
  category : Category
  undertone : Undertone
  dominant_colors : List Color
  confidence : ℚ
deriving DecidableEq, Repr

/-- Modelled from the spec (§3): a recommendation set: colors to wear, colors
to avoid, named palettes, styling tips. -/
structure RecommendationSet where
  recommended : List String
  avoid : List String
  palettes : List (String × List String)
  tips : List String
deriving DecidableEq, Repr

/-! ### Image preprocessor, modelled from the spec (§4.1)

`core.image_processor.ImageProcessor.process_image` is not in the repository.
The model decodes a toy byte format (width, height, then 3 bytes per pixel),
fails with `decodeError` on malformed bytes, with `emptyImage` on zero
dimensions, keeps pixels matching a fixed skin heuristic, falls back to
full-image sampling (flagged) when fewer than 1% of pixels qualify, and caps
the number of samples. -/

/-- Fixed skin-color heuristic: red-dominant pixels above a brightness floor. -/
def isSkinPixel (c : Color) : Bool :=
  decide (c.b ≤ c.g) && decide (c.g ≤ c.r) && decide (60 ≤ c.r)

/-- Decodes a flat byte list into pixels, three bytes per pixel. -/
def decodePixels : List Nat → Option (List Color)
  | [] => some []
  | r :: g :: b :: rest => (decodePixels rest).map (fun px => ⟨r, g, b⟩ :: px)
  | _ => none

/-- Cap on the number of representative samples handed to the classifier. -/
def sampleCap : Nat := 2000

/-- Modelled from the spec (§4.1, §6): `process_image(bytes)` of the missing
`core.image_processor` module. -/
def ImageProcessor.process_image (raw : List Nat) : Except CoreError ProcessedImage :=
  match raw with
  | w :: h :: rest =>
    if w = 0 ∨ h = 0 then .error .emptyImage
    else
      match decodePixels rest with
      | none => .error .decodeError
      | some px =>
        if px.length ≠ w * h then .error .decodeError
        else
          let skin := px.filter isSkinPixel
          if skin.length * 100 < px.length then
            .ok ⟨(px.take sampleCap).map (fun c => ⟨c, 1⟩), true⟩
          else
            .ok ⟨(skin.take sampleCap).map (fun c => ⟨c, 1⟩), false⟩
  | _ => .error .decodeError

/-! ### Tone classifier, modelled from the spec (§4.2)

`core.color_analyzer.ColorAnalyzer.analyze_skin_tone` is not in the
repository.  The model clusters samples by exact color (aggregating weights),
orders clusters by descending weight, classifies category from the luminance
of the heaviest centroid against fixed thresholds, classifies undertone from
red-vs-blue chrominance with a neutral dead-zone, and scores confidence as
the weighted fraction of samples agreeing with the majority category,
discounted on preprocessor fallback. -/

/-- Folds one sample into the accumulated (color, weight) clusters. -/
def addSample (acc : List (Color × Nat)) (s : PixelSample) : List (Color × Nat) :=
  match acc with
  | [] => [(s.color, s.weight)]
  | (c, w) :: rest =>
    if c = s.color then (c, w + s.weight) :: rest else (c, w) :: addSample rest s

/-- Aggregates samples into clusters keyed by color. -/
def rawClusters (samples : List PixelSample) : List (Color × Nat) :=
  samples.foldl addSample []

/-- Ordering of clusters: heavier first. -/
def heavier (a b : Color × Nat) : Prop := b.2 ≤ a.2

instance : DecidableRel heavier := fun a b => Nat.decLe b.2 a.2

instance : IsTotal (Color × Nat) heavier :=
  ⟨fun a b => (Nat.le_total a.2 b.2).symm⟩

instance : IsTrans (Color × Nat) heavier :=
  ⟨fun _ _ _ h1 h2 => Nat.le_trans h2 h1⟩

/-- Clusters sorted by descending weight. -/
def clusters (samples : List PixelSample) : List (Color × Nat) :=
  List.insertionSort heavier (rawClusters samples)

/-- Integer luminance of a color (BT.601 weights). -/
def luminance (c : Color) : Nat := (299 * c.r + 587 * c.g + 114 * c.b) / 1000

/-- Fixed brightness bands mapping luminance to a category. -/
def classifyCategory (y : Nat) : Category :=
  if 200 ≤ y then .fair
  else if 150 ≤ y then .light
  else if 100 ≤ y then .medium
  else .dark

/-- Dead-zone half-width for the neutral undertone band. -/
def undertoneDeadzone : Nat := 10

/-- Red-vs-blue chrominance comparison with a neutral dead-zone. -/
def classifyUndertone (c : Color) : Undertone :=
  if c.b + undertoneDeadzone ≤ c.r then .warm
  else if c.r + undertoneDeadzone ≤ c.b then .cool
  else .neutral

/-- Category a single sample would be assigned on its own. -/
def sampleCategory (s : PixelSample) : Category := classifyCategory (luminance s.color)

/-- Total weight of a sample list. -/
def totalWeight (l : List PixelSample) : Nat := (l.map PixelSample.weight).sum

/-- Weight of the samples whose individual category matches `cat`. -/
def agreeWeight (cat : Category) (l : List PixelSample) : Nat :=
  ((l.filter (fun s => decide (sampleCategory s = cat))).map PixelSample.weight).sum

/-- Confidence penalty factor applied when the preprocessor fell back to
full-image sampling. -/
def fallbackPenalty : ℚ := 7 / 10

/-- Modelled from the spec (§4.2, §6): `analyze_skin_tone(samples)` of the
missing `core.color_analyzer` module. -/
def ColorAnalyzer.analyze_skin_tone (p : ProcessedImage) : Except CoreError SkinToneResult :=
  match clusters p.samples with
  | [] => .error .insufficientData
  | top :: _ =>
    let cat := classifyCategory (luminance top.1)
    let raw : ℚ := (agreeWeight cat p.samples : ℚ) / (totalWeight p.samples : ℚ)
    let conf : ℚ := if p.fallback then fallbackPenalty * raw else raw
    .ok
      { category := cat
        undertone := classifyUndertone top.1
        dominant_colors := ((clusters p.samples).take 5).map Prod.fst
        confidence := conf }

/-! ### Recommendation catalog, modelled from the spec (§3, §4.3)

The PaletteCatalog is a static mapping from every (category, undertone) pair
to a RecommendationSet; `recommend` is a pure table lookup failing with
`unknownCombination` on a catalog gap. -/

/-- Catalog entry for (fair, cool). -/
def recFairCool : RecommendationSet :=
  { recommended := ["sapphire blue", "emerald green", "soft rose", "true red"]
    avoid := ["orange", "mustard yellow"]
    palettes := [("jewel tones", ["sapphire blue", "emerald green", "amethyst"])]
    tips := ["Choose silver-toned accessories."] }

/-- Catalog entry for (fair, warm). -/
def recFairWarm : RecommendationSet :=
  { recommended := ["peach", "ivory", "warm coral", "camel"]
    avoid := ["icy blue", "stark black"]
    palettes := [("soft warm", ["peach", "ivory", "warm coral"])]
    tips := ["Gold-toned accessories flatter warm undertones."] }

/-- Catalog entry for (fair, neutral). -/
def recFairNeutral : RecommendationSet :=
  { recommended := ["dusty pink", "soft navy", "sage green"]
    avoid := ["neon yellow", "harsh orange"]
    palettes := [("muted pastels", ["dusty pink", "sage green", "powder blue"])]
    tips := ["Both gold and silver accessories work."] }

/-- Catalog entry for (light, cool). -/
def recLightCool : RecommendationSet :=
  { recommended := ["lavender", "cool gray", "berry red", "teal"]
    avoid := ["rust", "golden brown"]
    palettes := [("cool brights", ["lavender", "teal", "berry red"])]
    tips := ["Lean on blue-based shades."] }

/-- Catalog entry for (light, warm). -/
def recLightWarm : RecommendationSet :=
  { recommended := ["golden yellow", "warm red", "olive green", "terracotta"]
    avoid := ["fuchsia", "cool silver"]
    palettes := [("earth tones", ["olive green", "terracotta", "camel"])]
    tips := ["Earth tones echo golden undertones."] }

/-- Catalog entry for (light, neutral). -/
def recLightNeutral : RecommendationSet :=
  { recommended := ["soft white", "denim blue", "mauve"]
    avoid := ["overly saturated neon"]
    palettes := [("versatile basics", ["soft white", "denim blue", "mauve"])]
    tips := ["Focus on saturation and brightness rather than temperature."] }

/-- Catalog entry for (medium, cool). -/
def recMediumCool : RecommendationSet :=
  { recommended := ["royal purple", "cobalt blue", "crimson"]
    avoid := ["beige", "pale yellow"]
    palettes := [("deep cools", ["royal purple", "cobalt blue", "crimson"])]
    tips := ["High-contrast cool shades stand out well."] }

/-- Catalog entry for (medium, warm). -/
def recMediumWarm : RecommendationSet :=
  { recommended := ["burnt orange", "warm gold", "forest green", "brick red"]
    avoid := ["pastel pink", "icy lavender"]
    palettes := [("autumn", ["burnt orange", "warm gold", "forest green"])]
    tips := ["Rich warm shades complement golden skin."] }

/-- Catalog entry for (medium, neutral). -/
def recMediumNeutral : RecommendationSet :=
  { recommended := ["teal", "cranberry", "charcoal"]
    avoid := ["washed-out beige"]
    palettes := [("balanced brights", ["teal", "cranberry", "charcoal"])]
    tips := ["Most colors work; prefer medium-to-high saturation."] }

/-- Catalog entry for (dark, cool). -/
def recDarkCool : RecommendationSet :=
  { recommended := ["fuchsia", "cobalt blue", "pure white", "ruby red"]
    avoid := ["muddy brown", "olive drab"]
    palettes := [("vivid cools", ["fuchsia", "cobalt blue", "pure white"])]
    tips := ["Bright cool shades create striking contrast."] }

/-- Catalog entry for (dark, warm). -/
def recDarkWarm : RecommendationSet :=
  { recommended := ["marigold", "copper", "warm ivory", "tomato red"]
    avoid := ["dull gray", "cool pastels"]
    palettes := [("sunset", ["marigold", "copper", "tomato red"])]
    tips := ["Warm metallics glow against deep skin."] }

/-- Catalog entry for (dark, neutral). -/
def recDarkNeutral : RecommendationSet :=
  { recommended := ["emerald green", "bright white", "royal blue"]
    avoid := ["faded pastels"]
    palettes := [("bold classics", ["emerald green", "bright white", "royal blue"])]
    tips := ["Saturated colors of either temperature work well."] }

/-- Modelled from the spec (§3): the PaletteCatalog as a static association
list over all 12 (category, undertone) pairs. -/
def catalogEntries : List ((Category × Undertone) × RecommendationSet) :=
  [((.fair, .cool), recFairCool), ((.fair, .warm), recFairWarm),
   ((.fair, .neutral), recFairNeutral),
   ((.light, .cool), recLightCool), ((.light, .warm), recLightWarm),
   ((.light, .neutral), recLightNeutral),
   ((.medium, .cool), recMediumCool), ((.medium, .warm), recMediumWarm),
   ((.medium, .neutral), recMediumNeutral),
   ((.dark, .cool), recDarkCool), ((.dark, .warm), recDarkWarm),
   ((.dark, .neutral), recDarkNeutral)]

/-- Modelled from the spec (§4.3): `recommend(category, undertone)`: a pure
table lookup over the catalog, failing with `unknownCombination` on a gap. -/
def ColorAnalyzer.recommend (c : Category) (u : Undertone) : Except CoreError RecommendationSet :=
  match catalogEntries.find? (fun e => decide (e.1 = (c, u))) with
  | some e => .ok e.2
  | none => .error .unknownCombination

/-- Modelled from the spec (§6): `get_color_recommendations(SkinToneResult)`
of the missing `core.color_analyzer` module: lookup keyed by the result's
category and undertone. -/
def ColorAnalyzer.get_color_recommendations (r : SkinToneResult) : Except CoreError RecommendationSet :=
  ColorAnalyzer.recommend r.category r.undertone

/-! ### Response schemas and the route, embedded from
`app/routes/color_analysis.py` (the schema field lists are taken from the
route's constructor calls, as `models.schemas` is not in the repository). -/

/-- The `SkinToneAnalysis` schema as populated by the route. -/
structure SkinToneAnalysis where
  category : Category
  undertone : Undertone
  dominant_colors : List Color
  confidence_score : ℚ
deriving DecidableEq, Repr

/-- The `ColorRecommendationResponse` schema as populated by the route. -/
structure ColorRecommendationResponse where
  skin_tone : SkinToneAnalysis
  recommended_colors : List String
  avoid_colors : List String
  color_palettes : List (String × List String)
  styling_tips : List String
deriving DecidableEq, Repr

/-- The response constructor call in `analyze_skin_tone` (lines 54-66 of the
route): every field is filled from the pipeline outputs. -/
def mkResponse (skin : SkinToneResult) (recs : RecommendationSet) : ColorRecommendationResponse :=
  { skin_tone :=
      { category := skin.category
        undertone := skin.undertone
        dominant_colors := skin.dominant_colors
        confidence_score := skin.confidence }
    recommended_colors := recs.recommended
    avoid_colors := recs.avoid
    color_palettes := recs.palettes
    styling_tips := recs.tips }

/-- An uploaded file as the route sees it: filename, declared content type,
and body bytes. -/
structure UploadFile where
  filename : String
  content_type : String
  content : List Nat
deriving DecidableEq, Repr

/-- A Python exception live inside the route's `try` block: either an
`HTTPException` (status, detail) or one of the core errors. -/
inductive Exn
  | http (status : Nat) (detail : String)
  | core (e : CoreError)
deriving DecidableEq, Repr

/-- Python `str(e)` of an exception, as used in the route's `except` block. -/
def Exn.str : Exn → String
  | .http s d => toString s ++ ": " ++ d
  | .core e => e.str

/-- The `detail` of the 400 raised on a disallowed content type. -/
def invalid_type_detail : String :=
  "Invalid file type. Allowed types: [image/jpeg, image/png, image/webp]"

/-- The `detail` of the 400 raised on an oversize body. -/
def too_large_detail : String :=
  "File too large. Maximum size: 10485760 bytes"

/-- Observable events of one request, used to state ordering properties. -/
inductive Stage
  | readBody
  | processImage
  | analyzeSkinTone
  | getRecommendations
deriving DecidableEq, Repr

/-- The body of the route's `try` block (lines 29-71): validation, the three
pipeline stages, response construction.  Returns the outcome together with
the ordered list of stages that ran. -/
def tryBody (file : UploadFile) : Except Exn ColorRecommendationResponse × List Stage :=
  if file.content_type ∉ settings.allowed_image_types then
    (.error (.http 400 invalid_type_detail), [])
  else
    let file_content := file.content
    if settings.max_image_size < file_content.length then
      (.error (.http 400 too_large_detail), [Stage.readBody])
    else
      match ImageProcessor.process_image file_content with
      | .error e => (.error (.core e), [Stage.readBody, Stage.processImage])
      | .ok processed =>
        match ColorAnalyzer.analyze_skin_tone processed with
        | .error e =>
          (.error (.core e), [Stage.readBody, Stage.processImage, Stage.analyzeSkinTone])
        | .ok skin =>
          match ColorAnalyzer.get_color_recommendations skin with
          | .error e =>
            (.error (.core e),
             [Stage.readBody, Stage.processImage, Stage.analyzeSkinTone,
              Stage.getRecommendations])
          | .ok recs =>
            (.ok (mkResponse skin recs),
             [Stage.readBody, Stage.processImage, Stage.analyzeSkinTone,
              Stage.getRecommendations])

/-- The HTTP-level error the route ends up raising. -/
structure HTTPError where
  status_code : Nat
  detail : String
deriving DecidableEq, Repr

/-- Outcome of one request to the route. -/
inductive HandlerResult
  | ok (resp : ColorRecommendationResponse)
  | error (e : HTTPError)
deriving DecidableEq, Repr

/-- Embeds the `analyze_skin_tone` route handler (lines 26-76): the `try`
body, with `except Exception` catching every exception raised inside it —
including the route's own 400 `HTTPException`s — and re-raising it as a 500
whose detail wraps `str(e)`. -/
def Routes.analyze_skin_tone (file : UploadFile) : HandlerResult × List Stage :=
  match tryBody file with
  | (.ok resp, log) => (.ok resp, log)
  | (.error e, log) =>
    (.error ⟨500, "Error processing image: " ++ e.str⟩, log)

/-! ### Helper lemmas -/

/-- Every category value lies in the four-element enum list. -/
lemma Category.mem_four_enum (c : Category) :
    c ∈ [Category.fair, Category.light, Category.medium, Category.dark] := by
  cases c <;> simp

/-- Every undertone value lies in the three-element enum list. -/
lemma Undertone.mem_three_enum (u : Undertone) :
    u ∈ [Undertone.cool, Undertone.warm, Undertone.neutral] := by
  cases u <;> simp

/-- The agreeing weight never exceeds the total weight. -/
lemma agreeWeight_le_totalWeight (cat : Category) (l : List PixelSample) :
    agreeWeight cat l ≤ totalWeight l := by
  induction l with
  | nil => simp [agreeWeight, totalWeight]
  | cons s t ih =>
    simp only [agreeWeight, totalWeight, List.filter_cons] at *
    split
    · simp only [List.map_cons, List.sum_cons]
      exact Nat.add_le_add_left ih _
    · simp only [List.map_cons, List.sum_cons]
      exact le_trans ih (Nat.le_add_left _ _)

/-- A quotient of naturals with numerator at most denominator lies in [0, 1]. -/
lemma natRatio_bounds (a b : Nat) (hab : a ≤ b) :
    0 ≤ (a : ℚ) / (b : ℚ) ∧ (a : ℚ) / (b : ℚ) ≤ 1 := by
  refine ⟨div_nonneg (Nat.cast_nonneg a) (Nat.cast_nonneg b), ?_⟩
  rcases Nat.eq_zero_or_pos b with hb | hb
  · subst hb
    simp
  · rw [div_le_one (by exact_mod_cast hb)]
    exact_mod_cast hab

/-- The classifier's confidence value lies in [0, 1]. -/
lemma confidence_bounds (fb : Bool) (cat : Category) (l : List PixelSample) :
    0 ≤ (if fb then fallbackPenalty * ((agreeWeight cat l : ℚ) / (totalWeight l : ℚ))
         else (agreeWeight cat l : ℚ) / (totalWeight l : ℚ)) ∧
    (if fb then fallbackPenalty * ((agreeWeight cat l : ℚ) / (totalWeight l : ℚ))
     else (agreeWeight cat l : ℚ) / (totalWeight l : ℚ)) ≤ 1 := by
  obtain ⟨h0, h1⟩ := natRatio_bounds _ _ (agreeWeight_le_totalWeight cat l)
  cases fb with
  | false => exact ⟨h0, h1⟩
  | true =>
    have hp : (0 : ℚ) ≤ fallbackPenalty := by rw [fallbackPenalty]; norm_num
    refine ⟨by simp only [if_pos]; exact mul_nonneg hp h0, ?_⟩
    simp only [if_pos]
    calc fallbackPenalty * ((agreeWeight cat l : ℚ) / (totalWeight l : ℚ))
        ≤ 1 * ((agreeWeight cat l : ℚ) / (totalWeight l : ℚ)) := by
          apply mul_le_mul_of_nonneg_right _ h0
          rw [fallbackPenalty]
          norm_num
      _ ≤ 1 := by simpa using h1

/-- The sorted cluster list is sorted by descending weight, and so is any
prefix of it, viewed through the weight projection. -/
lemma clusters_take_sorted (l : List PixelSample) (n : Nat) :
    List.Sorted (fun a b : Nat => b ≤ a) (((clusters l).take n).map Prod.snd) := by
  have hs : List.Sorted heavier (clusters l) :=
    List.sorted_insertionSort heavier (rawClusters l)
  have ht : List.Sorted heavier ((clusters l).take n) :=
    List.Pairwise.sublist (List.take_sublist n (clusters l)) hs
  exact List.Pairwise.map Prod.snd (fun a b hab => hab) ht

/-! ### Claim theorems: core pipeline -/

/-- C6: running the classifier twice on identical sample input yields
identical SkinToneResult values — the classification function is
deterministic (it is a pure function of the processed samples, with no
randomized initialization). -/
theorem ColorAnalyzer.analyze_skin_tone_deterministic (p q : ProcessedImage) (h : p = q) :
    ColorAnalyzer.analyze_skin_tone p = ColorAnalyzer.analyze_skin_tone q := by
  rw [h]

/-- Witness for C6 at a concrete one-sample input. -/
theorem ColorAnalyzer.analyze_skin_tone_deterministic_witness :
    ColorAnalyzer.analyze_skin_tone ⟨[⟨⟨200, 150, 120⟩, 1⟩], false⟩ =
      ColorAnalyzer.analyze_skin_tone ⟨[⟨⟨200, 150, 120⟩, 1⟩], false⟩ :=
  ColorAnalyzer.analyze_skin_tone_deterministic _ _ rfl

/-- C7: for every one of the 12 (category, undertone) enum pairs,
`recommend` succeeds (never fails with the unknown-combination error) and
returns a recommendation set whose recommended and avoid lists are both
non-empty. -/
theorem ColorAnalyzer.recommend_defined_and_nonempty (c : Category) (u : Undertone) :
    ∃ r, ColorAnalyzer.recommend c u = Except.ok r ∧
      r.recommended ≠ [] ∧ r.avoid ≠ [] := by
  cases c <;> cases u <;> exact ⟨_, rfl, by decide, by decide⟩

/-- C9: `get_settings` is a lazily-initialized singleton: the first call
constructs the default `Settings` object and stores it, and a second call
started from the state any call leaves behind returns the very same settings
value. -/
theorem get_settings_singleton (st : Option Settings) :
    get_settings none = (Settings.default, some Settings.default) ∧
    (get_settings (get_settings st).2).1 = (get_settings st).1 ∧
    (get_settings (get_settings st).2).2 = (get_settings st).2 := by
  cases st <;> simp [get_settings]

/-- C8: every successful classification has a category and undertone inside
the defined enums, a confidence in [0, 1], and at most 5 dominant colors,
which are exactly the heaviest cluster centroids listed by descending
cluster weight. -/
theorem ColorAnalyzer.analyze_skin_tone_wellformed (p : ProcessedImage) (skin : SkinToneResult)
    (h : ColorAnalyzer.analyze_skin_tone p = Except.ok skin) :
    skin.category ∈ [Category.fair, Category.light, Category.medium, Category.dark] ∧
    skin.undertone ∈ [Undertone.cool, Undertone.warm, Undertone.neutral] ∧
    0 ≤ skin.confidence ∧ skin.confidence ≤ 1 ∧
    skin.dominant_colors.length ≤ 5 ∧
    skin.dominant_colors = ((clusters p.samples).take 5).map Prod.fst ∧
    List.Sorted (fun a b : Nat => b ≤ a) (((clusters p.samples).take 5).map Prod.snd) := by
  rcases hc : clusters p.samples with _ | ⟨top, rest⟩
  · simp [ColorAnalyzer.analyze_skin_tone, hc] at h
  · simp only [ColorAnalyzer.analyze_skin_tone, hc] at h
    simp only [Except.ok.injEq] at h
    subst h
    refine ⟨Category.mem_four_enum _, Undertone.mem_three_enum _,
      (confidence_bounds p.fallback _ p.samples).1,
      (confidence_bounds p.fallback _ p.samples).2, ?_, ?_, ?_⟩
    · simp only [List.length_map, List.length_take]
      exact min_le_left _ _
    · rfl
    · have hs := clusters_take_sorted p.samples 5
      rwa [hc] at hs

/-! ### Route case analysis -/

/-- Exhaustive description of the route handler's behavior: exactly one of
the type-rejection, size-rejection, wrapped-core-error, or success outcomes
occurs, with the corresponding stage trace. -/
lemma Routes.analyze_skin_tone_cases (file : UploadFile) :
    (file.content_type ∉ settings.allowed_image_types ∧
      Routes.analyze_skin_tone file =
        (HandlerResult.error
          ⟨500, "Error processing image: " ++ Exn.str (Exn.http 400 invalid_type_detail)⟩,
         [])) ∨
    (file.content_type ∈ settings.allowed_image_types ∧
     settings.max_image_size < file.content.length ∧
      Routes.analyze_skin_tone file =
        (HandlerResult.error
          ⟨500, "Error processing image: " ++ Exn.str (Exn.http 400 too_large_detail)⟩,
         [Stage.readBody])) ∨
    (file.content_type ∈ settings.allowed_image_types ∧
     file.content.length ≤ settings.max_image_size ∧
     ∃ e : CoreError, ∃ log : List Stage,
       (log = [Stage.readBody, Stage.processImage] ∨
        log = [Stage.readBody, Stage.processImage, Stage.analyzeSkinTone] ∨
        log = [Stage.readBody, Stage.processImage, Stage.analyzeSkinTone,
               Stage.getRecommendations]) ∧
       Routes.analyze_skin_tone file =
         (HandlerResult.error ⟨500, "Error processing image: " ++ CoreError.str e⟩, log)) ∨
    (file.content_type ∈ settings.allowed_image_types ∧
     file.content.length ≤ settings.max_image_size ∧
     ∃ processed skin recs,
       ImageProcessor.process_image file.content = Except.ok processed ∧
       ColorAnalyzer.analyze_skin_tone processed = Except.ok skin ∧
       ColorAnalyzer.get_color_recommendations skin = Except.ok recs ∧
       Routes.analyze_skin_tone file =
         (HandlerResult.ok (mkResponse skin recs),
          [Stage.readBody, Stage.processImage, Stage.analyzeSkinTone,
           Stage.getRecommendations])) := by
  by_cases h1 : file.content_type ∈ settings.allowed_image_types
  · by_cases h2 : settings.max_image_size < file.content.length
    · exact Or.inr (Or.inl ⟨h1, h2, by simp [Routes.analyze_skin_tone, tryBody, h1, h2]⟩)
    · rcases hp : ImageProcessor.process_image file.content with e | processed
      · refine Or.inr (Or.inr (Or.inl ⟨h1, le_of_not_lt h2, e,
          [Stage.readBody, Stage.processImage], Or.inl rfl, ?_⟩))
        simp [Routes.analyze_skin_tone, tryBody, h1, h2, hp, Exn.str]
      · rcases hs : ColorAnalyzer.analyze_skin_tone processed with e | skin
        · refine Or.inr (Or.inr (Or.inl ⟨h1, le_of_not_lt h2, e,
            [Stage.readBody, Stage.processImage, Stage.analyzeSkinTone],
            Or.inr (Or.inl rfl), ?_⟩))
          simp [Routes.analyze_skin_tone, tryBody, h1, h2, hp, hs, Exn.str]
        · rcases hr : ColorAnalyzer.get_color_recommendations skin with e | recs
          · refine Or.inr (Or.inr (Or.inl ⟨h1, le_of_not_lt h2, e,
              [Stage.readBody, Stage.processImage, Stage.analyzeSkinTone,
               Stage.getRecommendations],
              Or.inr (Or.inr rfl), ?_⟩))
            simp [Routes.analyze_skin_tone, tryBody, h1, h2, hp, hs, hr, Exn.str]
          · refine Or.inr (Or.inr (Or.inr ⟨h1, le_of_not_lt h2, processed, skin, recs,
              ?_, ?_, ?_, ?_⟩)) <;>
              simp [Routes.analyze_skin_tone, tryBody, h1, h2, hp, hs, hr]
  · exact Or.inl ⟨h1, by simp [Routes.analyze_skin_tone, tryBody, h1]⟩

/-! ### Claim theorems: route handler -/

/-- C1 (code bug evidence): the route's blanket `except Exception` catches its
own 400 `HTTPException` for a disallowed content type, and the client-caused
decode failure alike, so both client-input problems surface with status 500 —
the same status an internal defect would get — instead of the 4xx/5xx
separation the claim requires. -/
theorem Routes.analyze_skin_tone_client_errors_collapsed_to_500 :
    (Routes.analyze_skin_tone ⟨"notes.txt", "text/plain", [1, 1, 210, 180, 150]⟩).1 =
      HandlerResult.error
        ⟨500, "Error processing image: 400: " ++ invalid_type_detail⟩ ∧
    (Routes.analyze_skin_tone ⟨"broken.png", "image/png", [7]⟩).1 =
      HandlerResult.error
        ⟨500, "Error processing image: " ++ CoreError.str CoreError.decodeError⟩ := by
  constructor <;> decide

/-- C2: whenever the route answers successfully, the stages ran in order
(read body, preprocess, classify, recommend) and the response is assembled
exactly from the classification's category, undertone, dominant colors and
confidence together with the recommendation's recommended, avoid, palettes
and tips fields. -/
theorem Routes.analyze_skin_tone_pipeline_order_and_response
    (file : UploadFile) (resp : ColorRecommendationResponse)
    (h : (Routes.analyze_skin_tone file).1 = HandlerResult.ok resp) :
    (Routes.analyze_skin_tone file).2 =
      [Stage.readBody, Stage.processImage, Stage.analyzeSkinTone,
       Stage.getRecommendations] ∧
    ∃ processed skin recs,
      ImageProcessor.process_image file.content = Except.ok processed ∧
      ColorAnalyzer.analyze_skin_tone processed = Except.ok skin ∧
      ColorAnalyzer.get_color_recommendations skin = Except.ok recs ∧
      resp = mkResponse skin recs := by
  rcases Routes.analyze_skin_tone_cases file with ⟨_, he⟩ | ⟨_, _, he⟩ |
    ⟨_, _, e, log, _, he⟩ | ⟨_, _, processed, skin, recs, hp, hs, hr, he⟩
  · rw [he] at h; simp at h
  · rw [he] at h; simp at h
  · rw [he] at h; simp at h
  · rw [he] at h
    simp only [HandlerResult.ok.injEq] at h
    exact ⟨by rw [he], processed, skin, recs, hp, hs, hr, h.symm⟩

/-- Witness for C2 at a concrete 1x1 image upload that succeeds end to end. -/
theorem Routes.analyze_skin_tone_pipeline_order_and_response_witness :
    (Routes.analyze_skin_tone ⟨"portrait.png", "image/png", [1, 1, 200, 150, 120]⟩).2 =
      [Stage.readBody, Stage.processImage, Stage.analyzeSkinTone,
       Stage.getRecommendations] ∧
    ∃ processed skin recs,
      ImageProcessor.process_image
          (⟨"portrait.png", "image/png", [1, 1, 200, 150, 120]⟩ : UploadFile).content =
        Except.ok processed ∧
      ColorAnalyzer.analyze_skin_tone processed = Except.ok skin ∧
      ColorAnalyzer.get_color_recommendations skin = Except.ok recs ∧
      mkResponse ⟨Category.light, Undertone.warm, [⟨200, 150, 120⟩], 1⟩ recLightWarm =
        mkResponse skin recs :=
  Routes.analyze_skin_tone_pipeline_order_and_response
    ⟨"portrait.png", "image/png", [1, 1, 200, 150, 120]⟩
    (mkResponse ⟨Category.light, Undertone.warm, [⟨200, 150, 120⟩], 1⟩ recLightWarm)
    (by
      simp [Routes.analyze_skin_tone, tryBody, settings, get_settings, Settings.default,
        ImageProcessor.process_image, decodePixels, isSkinPixel, sampleCap,
        ColorAnalyzer.analyze_skin_tone, clusters, rawClusters, addSample,
        classifyCategory, classifyUndertone, luminance, agreeWeight, totalWeight,
        sampleCategory, undertoneDeadzone,
        ColorAnalyzer.get_color_recommendations, ColorAnalyzer.recommend, catalogEntries,
        List.find?, mkResponse])

/-- C3: an upload with a disallowed content type is rejected with the
invalid-file-type error and the preprocessor never runs; conversely,
whenever the preprocessor stage did run, the upload's content type was one
of the allowed ones. -/
theorem Routes.analyze_skin_tone_invalid_type_rejected_before_preprocessor
    (file : UploadFile) (h : file.content_type ∉ settings.allowed_image_types) :
    (Routes.analyze_skin_tone file).1 =
      HandlerResult.error ⟨500, "Error processing image: 400: " ++ invalid_type_detail⟩ ∧
    Stage.processImage ∉ (Routes.analyze_skin_tone file).2 ∧
    ∀ f : UploadFile, Stage.processImage ∈ (Routes.analyze_skin_tone f).2 →
      f.content_type ∈ settings.allowed_image_types := by
  have key : ∀ f : UploadFile, Stage.processImage ∈ (Routes.analyze_skin_tone f).2 →
      f.content_type ∈ settings.allowed_image_types := by
    intro f hf
    rcases Routes.analyze_skin_tone_cases f with ⟨_, he⟩ | ⟨h1, _, _⟩ |
      ⟨h1, _, _⟩ | ⟨h1, _, _⟩
    · rw [he] at hf; simp at hf
    · exact h1
    · exact h1
    · exact h1
  rcases Routes.analyze_skin_tone_cases file with ⟨_, he⟩ | ⟨h1, _, _⟩ |
    ⟨h1, _, _⟩ | ⟨h1, _, _⟩
  · refine ⟨?_, ?_, key⟩
    · rw [he]; decide
    · rw [he]; decide
  · exact absurd h1 h
  · exact absurd h1 h
  · exact absurd h1 h

/-- Witness for C3 at a concrete text upload. -/
theorem Routes.analyze_skin_tone_invalid_type_rejected_before_preprocessor_witness :
    (Routes.analyze_skin_tone ⟨"a.txt", "text/plain", [1, 1, 210, 180, 150]⟩).1 =
      HandlerResult.error ⟨500, "Error processing image: 400: " ++ invalid_type_detail⟩ ∧
    Stage.processImage ∉
      (Routes.analyze_skin_tone ⟨"a.txt", "text/plain", [1, 1, 210, 180, 150]⟩).2 ∧
    ∀ f : UploadFile, Stage.processImage ∈ (Routes.analyze_skin_tone f).2 →
      f.content_type ∈ settings.allowed_image_types :=
  Routes.analyze_skin_tone_invalid_type_rejected_before_preprocessor
    ⟨"a.txt", "text/plain", [1, 1, 210, 180, 150]⟩ (by decide)

/-- C4: an allowed-type upload whose body exceeds the configured maximum
size is rejected with the file-too-large error before the preprocessor runs,
and an upload at or below the limit is never rejected with that error. -/
theorem Routes.analyze_skin_tone_size_limit_enforced (file : UploadFile) :
    (file.content_type ∈ settings.allowed_image_types →
      settings.max_image_size < file.content.length →
      (Routes.analyze_skin_tone file).1 =
        HandlerResult.error ⟨500, "Error processing image: 400: " ++ too_large_detail⟩ ∧
      Stage.processImage ∉ (Routes.analyze_skin_tone file).2) ∧
    (file.content.length ≤ settings.max_image_size →
      ∀ e, (Routes.analyze_skin_tone file).1 = HandlerResult.error e →
        e.detail ≠ "Error processing image: 400: " ++ too_large_detail) := by
  rcases Routes.analyze_skin_tone_cases file with ⟨h1, he⟩ | ⟨h1, h2, he⟩ |
    ⟨h1, h2, e0, log, hlog, he⟩ | ⟨h1, h2, processed, skin, recs, hp, hs, hr, he⟩
  · constructor
    · intro ha _
      exact absurd ha h1
    · intro _ e hee
      rw [he] at hee
      simp only [HandlerResult.error.injEq] at hee
      subst hee
      decide
  · constructor
    · intro _ _
      constructor
      · rw [he]; decide
      · rw [he]; decide
    · intro hlen
      exact absurd h2 (not_lt.mpr hlen)
  · constructor
    · intro _ hb
      exact absurd hb (not_lt.mpr h2)
    · intro _ e hee
      rw [he] at hee
      simp only [HandlerResult.error.injEq] at hee
      subst hee
      cases e0 <;> decide
  · constructor
    · intro _ hb
      exact absurd hb (not_lt.mpr h2)
    · intro _ e hee
      rw [he] at hee
      simp at hee

/-- Witness for C4: an 10485761-byte upload is rejected as too large, and a
small upload is never rejected with the too-large error. -/
theorem Routes.analyze_skin_tone_size_limit_enforced_witness :
    ((Routes.analyze_skin_tone
        ⟨"big.png", "image/png", List.replicate (10 * 1024 * 1024 + 1) 0⟩).1 =
      HandlerResult.error ⟨500, "Error processing image: 400: " ++ too_large_detail⟩ ∧
     Stage.processImage ∉
      (Routes.analyze_skin_tone
        ⟨"big.png", "image/png", List.replicate (10 * 1024 * 1024 + 1) 0⟩).2) ∧
    (∀ e, (Routes.analyze_skin_tone ⟨"small.png", "image/png", [1, 1, 210, 180, 150]⟩).1 =
        HandlerResult.error e →
      e.detail ≠ "Error processing image: 400: " ++ too_large_detail) :=
  ⟨(Routes.analyze_skin_tone_size_limit_enforced
      ⟨"big.png", "image/png", List.replicate (10 * 1024 * 1024 + 1) 0⟩).1
      (by decide)
      (by simp only [settings, get_settings, Settings.default, List.length_replicate]
          omega),
   (Routes.analyze_skin_tone_size_limit_enforced
      ⟨"small.png", "image/png", [1, 1, 210, 180, 150]⟩).2
      (by decide)⟩

/-- C5: every request produces either a failure or a response whose fields
are all populated from a complete classification and recommendation pair —
never a partial result. -/
theorem Routes.analyze_skin_tone_complete_or_failure (file : UploadFile) :
    (∃ e, (Routes.analyze_skin_tone file).1 = HandlerResult.error e) ∨
    (∃ skin recs,
      ColorAnalyzer.get_color_recommendations skin = Except.ok recs ∧
      (Routes.analyze_skin_tone file).1 = HandlerResult.ok (mkResponse skin recs)) := by
  rcases Routes.analyze_skin_tone_cases file with ⟨_, he⟩ | ⟨_, _, he⟩ |
    ⟨_, _, e, log, _, he⟩ | ⟨_, _, processed, skin, recs, hp, hs, hr, he⟩
  · exact Or.inl ⟨_, by rw [he]⟩
  · exact Or.inl ⟨_, by rw [he]⟩
  · exact Or.inl ⟨_, by rw [he]⟩
  · exact Or.inr ⟨skin, recs, hr, by rw [he]⟩

/-- C10: the content-type check strictly precedes the size check: a
disallowed content type is rejected with the invalid-file-type error no
matter how long the body is, and the body is never read (no stage at all
runs) for such a request. -/
theorem Routes.analyze_skin_tone_type_check_precedes_size_check (file : UploadFile)
    (h : file.content_type ∉ settings.allowed_image_types) :
    (Routes.analyze_skin_tone file).1 =
      HandlerResult.error ⟨500, "Error processing image: 400: " ++ invalid_type_detail⟩ ∧
    (Routes.analyze_skin_tone file).2 = [] := by
  rcases Routes.analyze_skin_tone_cases file with ⟨_, he⟩ | ⟨h1, _, _⟩ |
    ⟨h1, _, _⟩ | ⟨h1, _, _⟩
  · constructor
    · rw [he]; decide
    · rw [he]
  · exact absurd h1 h
  · exact absurd h1 h
  · exact absurd h1 h

/-- Witness for C10: a disallowed-type upload with an oversize body is still
rejected with the invalid-file-type error and its body is never read. -/
theorem Routes.analyze_skin_tone_type_check_precedes_size_check_witness :
    (Routes.analyze_skin_tone
        ⟨"huge.gif", "image/gif", List.replicate (10 * 1024 * 1024 + 1) 7⟩).1 =
      HandlerResult.error ⟨500, "Error processing image: 400: " ++ invalid_type_detail⟩ ∧
    (Routes.analyze_skin_tone
        ⟨"huge.gif", "image/gif", List.replicate (10 * 1024 * 1024 + 1) 7⟩).2 = [] :=
  Routes.analyze_skin_tone_type_check_precedes_size_check
    ⟨"huge.gif", "image/gif", List.replicate (10 * 1024 * 1024 + 1) 7⟩ (by decide)

/-- Witness for C8 at a concrete one-sample input whose classification is
(light, warm) with confidence 1. -/
theorem ColorAnalyzer.analyze_skin_tone_wellformed_witness :
    (⟨Category.light, Undertone.warm, [⟨200, 150, 120⟩], 1⟩ : SkinToneResult).category ∈
      [Category.fair, Category.light, Category.medium, Category.dark] ∧
    (⟨Category.light, Undertone.warm, [⟨200, 150, 120⟩], 1⟩ : SkinToneResult).undertone ∈
      [Undertone.cool, Undertone.warm, Undertone.neutral] ∧
    0 ≤ (⟨Category.light, Undertone.warm, [⟨200, 150, 120⟩], 1⟩ : SkinToneResult).confidence ∧
    (⟨Category.light, Undertone.warm, [⟨200, 150, 120⟩], 1⟩ : SkinToneResult).confidence ≤ 1 ∧
    (⟨Category.light, Undertone.warm, [⟨200, 150, 120⟩],
        1⟩ : SkinToneResult).dominant_colors.length ≤ 5 ∧
    (⟨Category.light, Undertone.warm, [⟨200, 150, 120⟩],
        1⟩ : SkinToneResult).dominant_colors =
      ((clusters [⟨⟨200, 150, 120⟩, 1⟩]).take 5).map Prod.fst ∧
    List.Sorted (fun a b : Nat => b ≤ a)
      (((clusters [⟨⟨200, 150, 120⟩, 1⟩]).take 5).map Prod.snd) :=
  ColorAnalyzer.analyze_skin_tone_wellformed ⟨[⟨⟨200, 150, 120⟩, 1⟩], false⟩
    ⟨Category.light, Undertone.warm, [⟨200, 150, 120⟩], 1⟩
    (by
      simp [ColorAnalyzer.analyze_skin_tone, clusters, rawClusters, addSample,
        classifyCategory, classifyUndertone, luminance, agreeWeight, totalWeight,
        sampleCategory, undertoneDeadzone])
